import Mathlib

set_option maxRecDepth 8000

/-!
Verification development for the `graphrag` repository.

The definitions below are a shallow embedding of the Python sources:
  * `graphrag/vector_store.py`  — Milvus-backed similarity search,
  * `graphrag/tools.py`         — the retrieval tool set and hybrid search,
  * `graphrag/agent.py`         — the bounded tool-calling agent loop,
  * `graphrag/service.py`       — result formatting and history saving,
  * `graphrag/data_access.py`   — the PostgreSQL conversation store.

External capabilities (the language model, the Milvus search call, the
Neo4j driver, the PostgreSQL connection) are passed in as explicit
function / `Except` parameters; everything the repository itself computes
is translated faithfully.  Store-native float distances are modelled as
rationals, so every distance-to-similarity conversion of the source is
exact here.
-/

namespace Graphrag

/-- A metadata value as stored in the Milvus `metadata` JSON column:
the repository writes dicts whose values are ints (`node_id`) or
strings (`label`, `name`). -/
inductive MetaVal where
  | int (i : Int)
  | str (s : String)
deriving DecidableEq, Repr

/-- A parsed metadata dict, as an association list (Python dict with
string keys). -/
abbrev Metadata := List (String × MetaVal)

/-- Python `meta[k]` / `k in meta`: first binding of `k`, if any. -/
def metaLookup (m : Metadata) (k : String) : Option MetaVal :=
  (m.find? (fun kv => kv.1 = k)).map (fun kv => kv.2)

/-- One raw hit as returned by `collection.search` in
`MilvusVectorStore.similarity_search`: a store-native distance plus the
stored `text` and parsed `metadata` output fields. -/
structure RawHit where
  distance : ℚ
  text : String
  metadata : Metadata
deriving DecidableEq, Repr

/-- One formatted result `(text, similarity, metadata)` of
`MilvusVectorStore.similarity_search`. -/
structure SearchHit where
  text : String
  score : ℚ
  metadata : Metadata
deriving DecidableEq, Repr

/-- `vector_store.py` lines 131-134: convert the store-native distance to
a similarity score; `(2 - d) / 2` when `config.metric_type == "COSINE"`,
`1 / (1 + d)` (L2 branch) otherwise. -/
def toSimilarity (metric : String) (d : ℚ) : ℚ :=
  if metric = "COSINE" then (2 - d) / 2 else 1 / (1 + d)

/-- `vector_store.py` lines 126-143: the result-formatting loop of
`similarity_search` — per hit convert distance to similarity, keep the
hit iff `similarity >= score_threshold`, preserving store order. -/
def formatResults (metric : String) (score_threshold : ℚ)
    (hits : List RawHit) : List SearchHit :=
  hits.filterMap (fun hit =>
    let similarity := toSimilarity metric hit.distance
    if score_threshold ≤ similarity then
      some ⟨hit.text, similarity, hit.metadata⟩
    else
      none)

/-- `MilvusVectorStore.similarity_search` (lines 102-147): the embedding
call and store search are a capability that either yields raw hits or
raises; the surrounding `try/except` returns `[]` on any exception. -/
def similarity_search (metric : String) (score_threshold : ℚ)
    (backend : Except String (List RawHit)) : List SearchHit :=
  match backend with
  | .error _ => []
  | .ok hits => formatResults metric score_threshold hits

end Graphrag

namespace Graphrag

/-! ### `graphrag/tools.py` — the retrieval tool set -/

/-- Python `repr` of a metadata value (ints bare, strings quoted),
used when a dict is interpolated into an f-string. -/
def MetaVal.pyRepr : MetaVal → String
  | .int i => toString i
  | .str s => "\x27" ++ s ++ "\x27"

/-- Python `str`/`repr` of a metadata dict. -/
def metaPyRepr (m : Metadata) : String :=
  "\x7b" ++
    String.intercalate ", "
      (m.map (fun kv => "\x27" ++ kv.1 ++ "\x27: " ++ kv.2.pyRepr)) ++
  "\x7d"

/-- Python `str` of a list of dicts (`str(result[:50])` in the cypher
tool). -/
def rowsPyRepr (rows : List Metadata) : String :=
  "[" ++ String.intercalate ", " (rows.map metaPyRepr) ++ "]"

/-- Python `f"{score:.3f}"` on a (non-negative) score, modelled as
rounding the rational to three decimal places. -/
def format3 (q : ℚ) : String :=
  let m : Int := round (q * 1000)
  let whole := m / 1000
  let frac := (m % 1000).toNat
  let fs := toString frac
  toString whole ++ "." ++ String.mk (List.replicate (3 - fs.length) '0') ++ fs

/-- `tools.py` lines 40-58, `neo4j_cypher_query`: the repository query is
a capability that returns rows or raises; an empty result is reported as
text, a non-empty one is previewed (`result[:50]`), and any exception
becomes `"查询失败: ..."`. -/
def neo4j_cypher_query (queryResult : Except String (List Metadata)) :
    String :=
  match queryResult with
  | .error e => "查询失败: " ++ e
  | .ok result =>
      if result.isEmpty then "查询未返回任何结果"
      else rowsPyRepr (result.take 50)

/-- `tools.py` lines 64-85, `neo4j_natural_language_query`: the QA chain
is a capability returning a response dict or raising;
`response.get("result", "未找到相关信息")` on success, `"查询失败: ..."`
on exception. -/
def neo4j_natural_language_query
    (chainResult : Except String (List (String × String))) : String :=
  match chainResult with
  | .error e => "查询失败: " ++ e
  | .ok response =>
      match (response.find? (fun kv => kv.1 = "result")).map (fun kv => kv.2) with
      | some r => r
      | none => "未找到相关信息"

/-- `tools.py` lines 92-101, `get_neo4j_schema`: returns the schema text,
or `"获取模式失败: ..."` on exception. -/
def get_neo4j_schema (schemaResult : Except String String) : String :=
  match schemaResult with
  | .error e => "获取模式失败: " ++ e
  | .ok s => s

/-- `tools.py` lines 125-132: the per-hit rendering loop of the
`semantic_search` tool (rank, score to 3 decimals, 200-char text
preview, metadata when non-empty). -/
def renderSemanticHits (results : List SearchHit) : String :=
  (List.enumFrom 1 results).foldl
    (fun acc p =>
      acc ++ toString p.1 ++ ". [相似度: " ++ format3 p.2.score ++ "]\n"
          ++ "   " ++ p.2.text.take 200 ++ "...\n"
          ++ (if p.2.metadata.isEmpty then ""
              else "   📎 " ++ metaPyRepr p.2.metadata ++ "\n")
          ++ "\n")
    ("🔍 找到 " ++ toString results.length ++ " 个语义相关结果:\n\n")

/-- `tools.py` lines 109-137, the `semantic_search` tool: delegates to
`similarity_search` (whose own `try/except` already swallows backend
exceptions, so the tool's `except` branch is unreachable) and renders
the hits, or reports that nothing was found. -/
def semantic_search_tool (metric : String) (score_threshold : ℚ)
    (backend : Except String (List RawHit)) : String :=
  let results := similarity_search metric score_threshold backend
  if results.isEmpty then "未找到相关内容"
  else renderSemanticHits results

/-- One row of the hybrid tool's neighborhood cypher query
(`entity`, `relation`, `related`). -/
structure GraphRow where
  entity : String
  relation : String
  related : String
deriving DecidableEq, Repr

/-- `tools.py` lines 159-162: collect `meta["node_id"]` from each
semantic hit that has one, in hit order (the loop appends without any
deduplication). -/
def extract_entity_ids (semantic_results : List SearchHit) : List MetaVal :=
  semantic_results.foldl
    (fun acc hit =>
      match metaLookup hit.metadata "node_id" with
      | some v => acc ++ [v]
      | none => acc)
    []

/-- `tools.py` lines 176-186: render the fused output — up to three
semantic hits, and up to five graph rows when any were fetched. -/
def renderHybrid (semantic_results : List SearchHit)
    (graph_results : List GraphRow) : String :=
  let out := "🔄 混合搜索结果:\n\n📊 语义相关内容:\n"
  let out := (List.enumFrom 1 (semantic_results.take 3)).foldl
    (fun acc p =>
      acc ++ "  " ++ toString p.1 ++ ". [" ++ format3 p.2.score ++ "] "
          ++ p.2.text.take 150 ++ "...\n")
    out
  if graph_results.isEmpty then out
  else
    (graph_results.take 5).foldl
      (fun acc gr =>
        acc ++ "  • " ++ gr.entity ++ " --" ++ gr.relation ++ "--> "
            ++ gr.related ++ "\n")
      (out ++ "\n🕸️  关系图谱:\n")

/-- `tools.py` lines 144-189, the `hybrid_search` tool.  The semantic
step is the (already exception-free) `similarity_search` result; the
graph step is a capability that returns rows or raises.  One `try`
wraps the whole body, so a graph-step exception produces
`"混合搜索失败: ..."` for the entire call.  The second component records
the graph queries actually issued (the argument lists passed to
`neo4j_repo.query`), so "no graph query was made" is provable. -/
def hybrid_search (semantic_results : List SearchHit)
    (graphQuery : List MetaVal → Except String (List GraphRow)) :
    String × List (List MetaVal) :=
  let entity_ids := extract_entity_ids semantic_results
  if entity_ids.isEmpty then
    (renderHybrid semantic_results [], [])
  else
    match graphQuery entity_ids with
    | .error e => ("混合搜索失败: " ++ e, [entity_ids])
    | .ok graph_results =>
        (renderHybrid semantic_results graph_results, [entity_ids])

end Graphrag

namespace Graphrag

/-- C3 helper example hits (cosine distances 0.2, 0.5, 1.8 of the spec
scenario). -/
def scenarioHits : List RawHit :=
  [⟨1/5, "t1", []⟩, ⟨1/2, "t2", []⟩, ⟨9/5, "t3", []⟩]

/-- A semantic hit whose metadata carries `node_id = 1`. -/
def hitNode1 : SearchHit := ⟨"foo", 9/10, [("node_id", .int 1)]⟩

/-- A second semantic hit carrying the same `node_id = 1`. -/
def hitNode1b : SearchHit := ⟨"bar", 4/5, [("node_id", .int 1)]⟩

/-- A graph capability whose query always raises with message `e`. -/
def failingGraphQuery (e : String) :
    List MetaVal → Except String (List GraphRow) :=
  fun _ => .error e

end Graphrag

namespace Graphrag

/-! ### `graphrag/agent.py` — the bounded tool-calling agent loop -/

/-- One tool-call request `{name, args}` emitted by the model. -/
structure ToolCall where
  name : String
  args : String
deriving DecidableEq, Repr

/-- One LangChain message as the loop sees it: `HumanMessage`,
`AIMessage` (with its `tool_calls` list), or `ToolMessage`. -/
inductive Msg where
  | human (content : String)
  | ai (content : String) (tool_calls : List ToolCall)
  | tool (content : String)
deriving DecidableEq, Repr

/-- The text content of a message. -/
def Msg.content : Msg → String
  | .human c => c
  | .ai c _ => c
  | .tool c => c

/-- `agent.py` lines 80-86, `AgentState`: the state threaded through the
LangGraph workflow (`messages` accumulates via `operator.add`,
`iteration_count` is overwritten by each node update). -/
structure AgentState where
  messages : List Msg
  iteration_count : Nat
  session_id : String
deriving DecidableEq, Repr

/-- `agent.py` lines 124-128, `_agent_node`: call the bound model on the
accumulated messages, append its response, and set
`iteration_count := iteration_count + 1`.  The model capability is a
function from the message list to the response's content and
tool-call list (always an `AIMessage`). -/
def agent_node (llm : List Msg → String × List ToolCall)
    (s : AgentState) : AgentState :=
  let r := llm s.messages
  { s with
    messages := s.messages ++ [.ai r.1 r.2],
    iteration_count := s.iteration_count + 1 }

/-- Where the conditional edge routes after the agent node. -/
inductive Route where
  | tools
  | stop
deriving DecidableEq, Repr

/-- `agent.py` lines 130-141, `_should_continue`: `"end"` once
`iteration_count >= max_iterations`; otherwise `"tools"` iff the last
message is an `AIMessage` with a non-empty `tool_calls` list. -/
def should_continue (max_iterations : Nat) (s : AgentState) : Route :=
  if max_iterations ≤ s.iteration_count then .stop
  else
    match s.messages.getLast? with
    | some (.ai _ tool_calls) => if tool_calls.isEmpty then .stop else .tools
    | _ => .stop

/-- The `ToolNode` of `agent.py` line 112: execute each tool call of the
last (assistant) message and append one tool-role message per call, in
request order; `toolExec` is the dispatch into the tool set. -/
def tools_node (toolExec : ToolCall → String) (s : AgentState) : AgentState :=
  let tool_calls :=
    match s.messages.getLast? with
    | some (.ai _ tcs) => tcs
    | _ => []
  { s with messages := s.messages ++ tool_calls.map (fun tc => .tool (toolExec tc)) }

/-- The compiled workflow of `_build_graph` (lines 108-122):
`agent → (tools → agent)* → END`, driven by `should_continue`.  The
`fuel` argument is only an upper bound on the number of agent-node
executions; `invoke` supplies `max_iterations + 1`, which is never
exhausted because `should_continue` stops once `iteration_count`
reaches the ceiling. -/
def run_loop (llm : List Msg → String × List ToolCall)
    (toolExec : ToolCall → String) (max_iterations : Nat) :
    Nat → AgentState → AgentState
  | 0, s => s
  | fuel + 1, s =>
      let s1 := agent_node llm s
      match should_continue max_iterations s1 with
      | .stop => s1
      | .tools => run_loop llm toolExec max_iterations fuel (tools_node toolExec s1)

/-- Like `run_loop`, but returning every intermediate `AgentState` (the
state entering each node and the final state), oldest first, so that
step-wise invariants can be stated. -/
def run_trace (llm : List Msg → String × List ToolCall)
    (toolExec : ToolCall → String) (max_iterations : Nat) :
    Nat → AgentState → List AgentState
  | 0, s => [s]
  | fuel + 1, s =>
      let s1 := agent_node llm s
      match should_continue max_iterations s1 with
      | .stop => [s, s1]
      | .tools =>
          s :: s1 :: run_trace llm toolExec max_iterations fuel (tools_node toolExec s1)

/-- `agent.py` lines 143-151, `invoke`: start from
`{messages := [HumanMessage(question)], iteration_count := 0}` and run
the graph.  (With the Postgres checkpointer a resumed session prepends
its saved messages; the claims under proof are per-run and do not
depend on the initial message list beyond its first element.) -/
def invoke (llm : List Msg → String × List ToolCall)
    (toolExec : ToolCall → String) (max_iterations : Nat)
    (question session_id : String) : AgentState :=
  run_loop llm toolExec max_iterations (max_iterations + 1)
    ⟨[.human question], 0, session_id⟩

/-- The state trace of `invoke`. -/
def invoke_trace (llm : List Msg → String × List ToolCall)
    (toolExec : ToolCall → String) (max_iterations : Nat)
    (question session_id : String) : List AgentState :=
  run_trace llm toolExec max_iterations (max_iterations + 1)
    ⟨[.human question], 0, session_id⟩

/-! ### `graphrag/service.py` — result formatting -/

/-- The dict built by `Neo4jQueryService._format_result`
(lines 103-139): its five keys are the entire surface handed to the
caller. -/
structure FormattedResult where
  session_id : String
  question : String
  answer : String
  conversation : List (String × String)
  tool_calls : List ToolCall
deriving DecidableEq, Repr

/-- `service.py` lines 103-139, `_format_result`: `question`/`answer`
are the first/last message contents; the loop sorts each message into
`conversation` (user / assistant-without-tool-calls / tool, the latter
truncated to 300 chars) or into `tool_calls` (every call of a
tool-call-bearing assistant message). -/
def format_result (result : AgentState) (session_id : String) :
    FormattedResult :=
  let messages := result.messages
  let base : FormattedResult :=
    { session_id := session_id
      question := (messages.head?.map Msg.content).getD ""
      answer := (messages.getLast?.map Msg.content).getD ""
      conversation := []
      tool_calls := [] }
  messages.foldl
    (fun acc msg =>
      match msg with
      | .human c =>
          { acc with conversation := acc.conversation ++ [("user", c)] }
      | .ai c tool_calls =>
          if tool_calls.isEmpty then
            { acc with conversation := acc.conversation ++ [("assistant", c)] }
          else
            { acc with tool_calls := acc.tool_calls ++ tool_calls }
      | .tool c =>
          { acc with conversation := acc.conversation ++
              [("tool", if 300 < c.length then c.take 300 ++ "..." else c)] })
    base

/-- A model stub that always answers `"hello"` with no tool calls. -/
def llmHello : List Msg → String × List ToolCall := fun _ => ("hello", [])

/-- A tool dispatcher stub (never reached by `llmHello` runs). -/
def toolExecStub : ToolCall → String := fun _ => ""

/-! ### `graphrag/data_access.py` — the PostgreSQL conversation store -/

/-- One row of the `conversations` table (`id SERIAL PRIMARY KEY`,
`session_id UNIQUE`, timestamps; `metadata` is irrelevant to the claims
and omitted). -/
structure ConvRow where
  id : Nat
  session_id : String
  updated_at : Nat
deriving DecidableEq, Repr

/-- The `conversations` table state: its rows, the next `SERIAL` id,
and a logical clock standing for `CURRENT_TIMESTAMP`. -/
structure ConvDB where
  rows : List ConvRow
  next_id : Nat
  now : Nat
deriving DecidableEq, Repr

/-- `data_access.py` lines 150-163, `create_conversation`:
`INSERT ... ON CONFLICT (session_id) DO UPDATE SET updated_at = now
RETURNING id` — on a fresh `session_id` a new row is inserted; on a
conflict with the unique key only `updated_at` changes and the existing
row's id is returned. -/
def create_conversation (sid : String) (db : ConvDB) : Nat × ConvDB :=
  match db.rows.find? (fun r => r.session_id = sid) with
  | some r =>
      (r.id,
       { db with
          rows := db.rows.map (fun row =>
            if row.session_id = sid then { row with updated_at := db.now }
            else row)
          now := db.now + 1 })
  | none =>
      (db.next_id,
       { rows := db.rows ++ [⟨db.next_id, sid, db.now⟩]
         next_id := db.next_id + 1
         now := db.now + 1 })

/-- `data_access.py` lines 183-190, `get_conversation_id`:
`SELECT id FROM conversations WHERE session_id = %s`. -/
def get_conversation_id (sid : String) (db : ConvDB) : Option Nat :=
  (db.rows.find? (fun r => r.session_id = sid)).map (fun r => r.id)

/-- `service.py` lines 89-91 in `_save_to_history`: the load-or-create
step — look the session up, create it only when absent. -/
def load_or_create (sid : String) (db : ConvDB) : Nat × ConvDB :=
  match get_conversation_id sid db with
  | some i => (i, db)
  | none => create_conversation sid db

end Graphrag

open Graphrag

/-- C3: the store-native distance `d` is converted to `(2 - d) / 2` under
the cosine metric and to `1 / (1 + d)` otherwise; cosine distances
`[0.2, 0.5, 1.8]` normalize to `[0.9, 0.75, 0.1]`, and with threshold
`0.7` only the first two hits are retained, in order. -/
theorem similarity_conversion_scenario :
    (∀ d : ℚ, toSimilarity "COSINE" d = (2 - d) / 2)
    ∧ (∀ (metric : String) (d : ℚ), metric ≠ "COSINE" →
        toSimilarity metric d = 1 / (1 + d))
    ∧ (scenarioHits.map (fun h => toSimilarity "COSINE" h.distance)
        = [9/10, 3/4, 1/10])
    ∧ formatResults "COSINE" (7/10) scenarioHits
        = [⟨"t1", 9/10, []⟩, ⟨"t2", 3/4, []⟩] := by
  refine ⟨fun d => ?_, fun metric d hm => ?_, ?_, ?_⟩
  · simp [toSimilarity]
  · simp [toSimilarity, hm]
  · norm_num [scenarioHits, toSimilarity]
  · norm_num [scenarioHits, toSimilarity, formatResults,
      List.filterMap_cons, List.filterMap_nil]

/-- Witness for `similarity_conversion_scenario` at the Euclidean branch
with metric `"L2"` and distance `1`. -/
theorem similarity_conversion_scenario_witness :
    toSimilarity "L2" 1 = 1 / (1 + 1) :=
  similarity_conversion_scenario.2.1 "L2" 1 (by decide)

/-- C4: assuming cosine distances lie in `[0, 2]` and Euclidean distances
are non-negative, every hit kept by the `similarity_search` formatting
loop has a similarity score in `[0, 1]`, and — the threshold being
applied to the already-normalized score — no kept hit scores strictly
below the threshold. -/
theorem similarity_scores_bounded (metric : String) (t : ℚ)
    (hits : List RawHit)
    (hcos : metric = "COSINE" → ∀ h ∈ hits, 0 ≤ h.distance ∧ h.distance ≤ 2)
    (heuc : metric ≠ "COSINE" → ∀ h ∈ hits, 0 ≤ h.distance) :
    ∀ r ∈ formatResults metric t hits,
      0 ≤ r.score ∧ r.score ≤ 1 ∧ t ≤ r.score := by
  intro r hr
  rw [formatResults, List.mem_filterMap] at hr
  obtain ⟨a, ha, hfa⟩ := hr
  by_cases hle : t ≤ toSimilarity metric a.distance
  · simp only [hle, if_pos] at hfa
    have hscore : r.score = toSimilarity metric a.distance := by
      cases hfa; rfl
    refine ⟨?_, ?_, hscore ▸ hle⟩ <;> rw [hscore, toSimilarity]
    · by_cases hm : metric = "COSINE"
      · obtain ⟨h0, h2⟩ := hcos hm a ha
        rw [if_pos hm]
        have : (0 : ℚ) ≤ 2 - a.distance := by linarith
        positivity
      · have h0 := heuc hm a ha
        rw [if_neg hm]
        have : (0 : ℚ) < 1 + a.distance := by linarith
        positivity
    · by_cases hm : metric = "COSINE"
      · obtain ⟨h0, h2⟩ := hcos hm a ha
        rw [if_pos hm]
        rw [div_le_one (by norm_num : (0:ℚ) < 2)]
        linarith
      · have h0 := heuc hm a ha
        rw [if_neg hm]
        rw [div_le_one (by linarith : (0:ℚ) < 1 + a.distance)]
        linarith
  · simp [hle] at hfa

/-- Witness for `similarity_scores_bounded`: one cosine hit of distance
`0.2` kept at threshold `0.7`. -/
theorem similarity_scores_bounded_witness :
    0 ≤ (SearchHit.mk "t1" (9/10) []).score
    ∧ (SearchHit.mk "t1" (9/10) []).score ≤ 1
    ∧ (7/10 : ℚ) ≤ (SearchHit.mk "t1" (9/10) []).score :=
  similarity_scores_bounded "COSINE" (7/10) [⟨1/5, "t1", []⟩]
    (fun _ h hh => by
      simp only [List.mem_singleton] at hh
      subst hh; norm_num)
    (fun hm => absurd rfl hm)
    (SearchHit.mk "t1" (9/10) [])
    (by norm_num [formatResults, toSimilarity,
      List.filterMap_cons, List.filterMap_nil])

/-- C10: any backend exception inside `similarity_search` is swallowed
and yields `[]`, which is the same value a healthy backend produces when
no hit clears the threshold — the caller cannot tell the two apart. -/
theorem similarity_search_swallows_failures :
    (∀ (metric : String) (t : ℚ) (e : String),
      similarity_search metric t (.error e) = [])
    ∧ similarity_search "COSINE" (7/10) (.ok [⟨9/5, "far", []⟩]) = []
    ∧ similarity_search "COSINE" (7/10) (.error "milvus down")
        = similarity_search "COSINE" (7/10) (.ok [⟨9/5, "far", []⟩]) := by
  refine ⟨fun _ _ _ => rfl, ?_, ?_⟩ <;>
    norm_num [similarity_search, formatResults, toSimilarity,
      List.filterMap_cons, List.filterMap_nil]

/-- Helper: `format3` on the score `9/10` renders as `"0.900"`. -/
theorem format3_nine_tenths : format3 (9/10) = "0.900" := by
  have h : round ((9:ℚ)/10 * 1000) = 900 := by norm_num
  simp only [format3, h]
  rfl

/-- Helper: concrete value of the degraded-mode rendering the spec
mandates for `hybrid_search` when the graph step fails after one
semantic hit. -/
theorem renderHybrid_hitNode1_empty :
    renderHybrid [hitNode1] []
      = "🔄 混合搜索结果:\n\n📊 语义相关内容:\n  1. [0.900] foo...\n" := by
  rw [show renderHybrid [hitNode1] []
        = "🔄 混合搜索结果:\n\n📊 语义相关内容:\n" ++ "  " ++ toString 1
          ++ ". [" ++ format3 ((9:ℚ)/10) ++ "] " ++ ("foo".take 150)
          ++ "...\n" from rfl,
      format3_nine_tenths]
  rfl

/-- C5 counterexample: with one semantic hit carrying `node_id = 1` and
a graph capability that raises, `hybrid_search` returns only the
failure message — not the semantic hits paired with an empty graph-edge
list. -/
theorem hybrid_graph_failure_discards_semantic :
    (hybrid_search [hitNode1] (failingGraphQuery "连接失败")).1
      = "混合搜索失败: 连接失败"
    ∧ (hybrid_search [hitNode1] (failingGraphQuery "连接失败")).1
      ≠ renderHybrid [hitNode1] [] := by
  constructor
  · rfl
  · rw [renderHybrid_hitNode1_empty]
    decide

/-- C5 (amended): when the collected entity-id list is non-empty and the
graph-neighborhood query raises with message `e`, the whole
`hybrid_search` call returns the single failure string
`"混合搜索失败: " ++ e`; the semantic hits are discarded. -/
theorem hybrid_graph_failure_returns_failure_text
    (semantic_results : List SearchHit) (e : String)
    (h : extract_entity_ids semantic_results ≠ []) :
    hybrid_search semantic_results (failingGraphQuery e)
      = ("混合搜索失败: " ++ e, [extract_entity_ids semantic_results]) := by
  rw [hybrid_search]
  simp only [List.isEmpty_iff, h, if_neg, failingGraphQuery]
  simp [h]

/-- Witness for `hybrid_graph_failure_returns_failure_text` at one
semantic hit with `node_id = 1`. -/
theorem hybrid_graph_failure_returns_failure_text_witness :
    hybrid_search [hitNode1] (failingGraphQuery "超时")
      = ("混合搜索失败: 超时", [extract_entity_ids [hitNode1]]) :=
  hybrid_graph_failure_returns_failure_text [hitNode1] "超时" (by decide)

/-- C6 counterexample: two hits sharing `node_id = 1` yield the
collected id list `[1, 1]` — the ids are not deduplicated, so the list
contains an entity id twice. -/
theorem entity_ids_duplicated_counterexample :
    extract_entity_ids [hitNode1, hitNode1b] = [.int 1, .int 1]
    ∧ ¬ (extract_entity_ids [hitNode1, hitNode1b]).Nodup := by
  constructor
  · rfl
  · decide

/-- C6 (amended): the entity-id collection loop gathers one entry per
hit whose metadata has a `node_id`, in hit order, with duplicates
retained — it performs no deduplication (it is exactly a `filterMap`
over the hits). -/
theorem entity_ids_in_hit_order_with_duplicates (l : List SearchHit) :
    extract_entity_ids l
      = l.filterMap (fun h => metaLookup h.metadata "node_id") := by
  suffices h : ∀ (acc : List MetaVal),
      l.foldl (fun acc hit =>
        match metaLookup hit.metadata "node_id" with
        | some v => acc ++ [v]
        | none => acc) acc
      = acc ++ l.filterMap (fun h => metaLookup h.metadata "node_id") by
    simpa [extract_entity_ids] using h []
  induction l with
  | nil => intro acc; simp
  | cons hd tl ih =>
      intro acc
      cases hmeta : metaLookup hd.metadata "node_id" with
      | none => simp [List.foldl_cons, List.filterMap_cons, hmeta, ih]
      | some v => simp [List.foldl_cons, List.filterMap_cons, hmeta, ih]

/-- C7: when no entity id was collected, `hybrid_search` issues no graph
query at all (the issued-query trace is empty, for every graph
capability, even an always-raising one) and returns the rendering with
an empty graph-edge list — not an error. -/
theorem hybrid_empty_entities_skips_graph
    (semantic_results : List SearchHit)
    (graphQuery : List MetaVal → Except String (List GraphRow))
    (h : extract_entity_ids semantic_results = []) :
    hybrid_search semantic_results graphQuery
      = (renderHybrid semantic_results [], []) := by
  rw [hybrid_search]
  simp [h]

/-- Witness for `hybrid_empty_entities_skips_graph`: an empty semantic
result set, against an always-raising graph capability. -/
theorem hybrid_empty_entities_skips_graph_witness :
    hybrid_search [] (failingGraphQuery "boom")
      = (renderHybrid [] [], []) :=
  hybrid_empty_entities_skips_graph [] (failingGraphQuery "boom") rfl

/-- C8: every retrieval tool is a total function into result text, and
every backend failure is converted into an in-band descriptive string:
`"查询失败: ..."` for the two query tools, `"获取模式失败: ..."` for the
schema tool, the no-results text for the semantic tool (whose backend
errors are already swallowed inside `similarity_search`), and
`"混合搜索失败: ..."` for the hybrid tool — never an uncaught
exception. -/
theorem tools_never_raise_failures_become_text :
    ∀ e : String,
      neo4j_cypher_query (.error e) = "查询失败: " ++ e
      ∧ neo4j_natural_language_query (.error e) = "查询失败: " ++ e
      ∧ get_neo4j_schema (.error e) = "获取模式失败: " ++ e
      ∧ (∀ (metric : String) (t : ℚ),
          semantic_search_tool metric t (.error e) = "未找到相关内容")
      ∧ (hybrid_search [hitNode1] (failingGraphQuery e)).1
          = "混合搜索失败: " ++ e := by
  intro e
  refine ⟨rfl, rfl, rfl, fun metric t => rfl, ?_⟩
  rw [hybrid_graph_failure_returns_failure_text [hitNode1] e (by decide)]

/-- Helper: each agent-node execution (one model call) increments
`iteration_count` by exactly 1. -/
theorem agent_node_increments (llm : List Msg → String × List ToolCall)
    (s : AgentState) :
    (agent_node llm s).iteration_count = s.iteration_count + 1 := rfl

/-- Helper: the tools node never touches `iteration_count`. -/
theorem tools_node_iteration (toolExec : ToolCall → String) (s : AgentState) :
    (tools_node toolExec s).iteration_count = s.iteration_count := rfl

/-- Helper: routing to the tools node is only possible strictly below
the iteration ceiling. -/
theorem should_continue_tools_lt {m : Nat} {s : AgentState}
    (h : should_continue m s = .tools) : s.iteration_count < m := by
  by_contra hlt
  push_neg at hlt
  rw [should_continue, if_pos hlt] at h
  exact Route.noConfusion h

/-- Helper: the first state of a run trace is the state the run was
started from. -/
theorem run_trace_head (llm : List Msg → String × List ToolCall)
    (toolExec : ToolCall → String) (m fuel : Nat) (s : AgentState) :
    (run_trace llm toolExec m fuel s).head? = some s := by
  cases fuel with
  | zero => rfl
  | succ n =>
      rw [run_trace]
      cases should_continue m (agent_node llm s) <;> rfl

/-- Helper: along every run trace, `iteration_count` never decreases. -/
theorem run_trace_chain (llm : List Msg → String × List ToolCall)
    (toolExec : ToolCall → String) (m : Nat) :
    ∀ (fuel : Nat) (s : AgentState),
      List.Chain' (fun a b => a.iteration_count ≤ b.iteration_count)
        (run_trace llm toolExec m fuel s) := by
  intro fuel
  induction fuel with
  | zero => intro s; simp [run_trace]
  | succ n ih =>
      intro s
      rw [run_trace]
      cases hsc : should_continue m (agent_node llm s) with
      | stop =>
          simp only [List.chain'_cons, List.chain'_singleton, and_true]
          rw [agent_node_increments]
          exact Nat.le_succ _
      | tools =>
          rw [List.chain'_cons]
          constructor
          · rw [agent_node_increments]; exact Nat.le_succ _
          · rw [List.chain'_cons']
            refine ⟨?_, ih _⟩
            intro y hy
            rw [run_trace_head] at hy
            cases hy
            rw [tools_node_iteration]

/-- Helper: every state of a run trace started strictly below the
ceiling (or at iteration 0) keeps `iteration_count ≤ max m 1`. -/
theorem run_trace_bounded (llm : List Msg → String × List ToolCall)
    (toolExec : ToolCall → String) (m : Nat) :
    ∀ (fuel : Nat) (s : AgentState),
      s.iteration_count < m ∨ s.iteration_count = 0 →
      ∀ t ∈ run_trace llm toolExec m fuel s, t.iteration_count ≤ max m 1 := by
  intro fuel
  induction fuel with
  | zero =>
      intro s hs t ht
      simp only [run_trace, List.mem_singleton] at ht
      subst ht
      rcases hs with h | h
      · exact le_trans (Nat.le_of_lt h) (Nat.le_max_left m 1)
      · rw [h]; exact Nat.zero_le _
  | succ n ih =>
      intro s hs t ht
      have hstep : (agent_node llm s).iteration_count ≤ max m 1 := by
        rw [agent_node_increments]
        rcases hs with h | h
        · exact le_trans h (Nat.le_max_left m 1)
        · rw [h]; exact Nat.le_max_right m 1
      rw [run_trace] at ht
      cases hsc : should_continue m (agent_node llm s) with
      | stop =>
          rw [hsc] at ht
          simp only [List.mem_cons, List.mem_singleton, List.not_mem_nil,
            or_false] at ht
          rcases ht with h | h
          · subst h
            rcases hs with h' | h'
            · exact le_trans (Nat.le_of_lt h') (Nat.le_max_left m 1)
            · rw [h']; exact Nat.zero_le _
          · subst h; exact hstep
      | tools =>
          rw [hsc] at ht
          simp only [List.mem_cons] at ht
          rcases ht with h | h | h
          · subst h
            rcases hs with h' | h'
            · exact le_trans (Nat.le_of_lt h') (Nat.le_max_left m 1)
            · rw [h']; exact Nat.zero_le _
          · subst h; exact hstep
          · refine ih _ ?_ t h
            left
            rw [tools_node_iteration]
            exact should_continue_tools_lt hsc

/-- C1 (amended): within one run, `iteration_count` starts at 0, each
model call increments it by exactly 1, it is monotonically
non-decreasing along the run, and it never exceeds
`max max_iterations 1` (the agent node runs unconditionally once, so a
ceiling of 0 is still overshot by that first mandatory model call;
for every ceiling `≥ 1` the bound is the ceiling itself). -/
theorem iteration_count_invariant (llm : List Msg → String × List ToolCall)
    (toolExec : ToolCall → String) (max_iterations : Nat)
    (question session_id : String) :
    (invoke_trace llm toolExec max_iterations question session_id).head?
      = some ⟨[.human question], 0, session_id⟩
    ∧ List.Chain' (fun a b => a.iteration_count ≤ b.iteration_count)
        (invoke_trace llm toolExec max_iterations question session_id)
    ∧ (∀ t ∈ invoke_trace llm toolExec max_iterations question session_id,
        t.iteration_count ≤ max max_iterations 1)
    ∧ (∀ s, (agent_node llm s).iteration_count = s.iteration_count + 1) :=
  ⟨run_trace_head llm toolExec max_iterations (max_iterations + 1) _,
   run_trace_chain llm toolExec max_iterations (max_iterations + 1) _,
   run_trace_bounded llm toolExec max_iterations (max_iterations + 1) _
     (Or.inr rfl),
   fun s => agent_node_increments llm s⟩

/-- Witness for `iteration_count_invariant`: in the concrete run with
ceiling 1 and a tool-free model stub, the final state (iteration 1) is
in the trace and respects the bound. -/
theorem iteration_count_invariant_witness :
    (AgentState.mk [.human "q", .ai "hello" []] 1 "s").iteration_count
      ≤ max 1 1 :=
  (iteration_count_invariant llmHello toolExecStub 1 "q" "s").2.2.1
    ⟨[.human "q", .ai "hello" []], 1, "s"⟩ (by decide)

/-- C1 counterexample (for the claim exactly as stated): with the
configured ceiling `max_iterations = 0`, the run still makes its one
unconditional model call, so `iteration_count` terminates at 1 and
exceeds the ceiling. -/
theorem iteration_ceiling_zero_counterexample :
    (invoke llmHello toolExecStub 0 "q" "s").iteration_count = 1
    ∧ ¬ (invoke llmHello toolExecStub 0 "q" "s").iteration_count ≤ 0 := by
  decide

/-- C2 counterexample: two concrete runs — one terminating with
`iteration_count = max_iterations` (ceiling reached, ceiling 1), one
terminating only because the response has no tool calls (ceiling 2) —
produce *identical* `_format_result` outputs, so the surfaced result
carries no distinguishable termination reason. -/
theorem termination_reason_not_surfaced :
    format_result (invoke llmHello toolExecStub 1 "q" "s") "s"
      = format_result (invoke llmHello toolExecStub 2 "q" "s") "s"
    ∧ (invoke llmHello toolExecStub 1 "q" "s").iteration_count = 1
    ∧ (invoke llmHello toolExecStub 2 "q" "s").iteration_count = 1
    ∧ (match (invoke llmHello toolExecStub 2 "q" "s").messages.getLast? with
       | some (.ai _ tcs) => tcs.isEmpty
       | _ => false) = true := by
  decide

/-- C2 (amended): `_format_result` surfaces only
`{session_id, question, answer, conversation, tool_calls}`, all computed
from the message list alone — it does not depend on `iteration_count`
or on the configured ceiling, so no termination reason reaches the
caller. -/
theorem format_result_depends_only_on_messages
    (s1 s2 : AgentState) (session_id : String)
    (h : s1.messages = s2.messages) :
    format_result s1 session_id = format_result s2 session_id := by
  simp only [format_result, h]

/-- Witness for `format_result_depends_only_on_messages`: two states
equal up to `iteration_count` and `session_id` format identically. -/
theorem format_result_depends_only_on_messages_witness :
    format_result ⟨[.human "q"], 0, "a"⟩ "s"
      = format_result ⟨[.human "q"], 7, "b"⟩ "s" :=
  format_result_depends_only_on_messages
    ⟨[.human "q"], 0, "a"⟩ ⟨[.human "q"], 7, "b"⟩ "s" rfl

/-- Helper: a zero match count means the key lookup finds nothing. -/
theorem find?_none_of_countP_zero (sid : String) (rows : List ConvRow)
    (h : rows.countP (fun r => r.session_id = sid) = 0) :
    rows.find? (fun r => r.session_id = sid) = none :=
  List.find?_eq_none.mpr (fun x hx => List.countP_eq_zero.mp h x hx)

/-- C9: the load-or-create step of `_save_to_history` is idempotent —
on a fresh `session_id` the first call persists exactly one
`conversations` row, a second load-or-create returns the same id and
leaves the table untouched, and even a direct second
`create_conversation` (the `ON CONFLICT` upsert) adds no row, keeps
exactly one row for the id, and returns the same id. -/
theorem load_or_create_idempotent (sid : String) (db : ConvDB)
    (h : db.rows.countP (fun r => r.session_id = sid) = 0) :
    ((load_or_create sid db).2.rows.countP (fun r => r.session_id = sid) = 1)
    ∧ (load_or_create sid (load_or_create sid db).2
        = ((load_or_create sid db).1, (load_or_create sid db).2))
    ∧ ((create_conversation sid (load_or_create sid db).2).2.rows.length
        = (load_or_create sid db).2.rows.length)
    ∧ ((create_conversation sid (load_or_create sid db).2).2.rows.countP
          (fun r => r.session_id = sid) = 1)
    ∧ ((create_conversation sid (load_or_create sid db).2).1
        = (load_or_create sid db).1) := by
  have hfind := find?_none_of_countP_zero sid db.rows h
  have hmap :
      ∀ rows : List ConvRow, ∀ t : Nat,
        (rows.map (fun row =>
            if row.session_id = sid then { row with updated_at := t }
            else row)).countP (fun r => r.session_id = sid)
          = rows.countP (fun r => r.session_id = sid) := by
    intro rows t
    rw [List.countP_map]
    apply List.countP_congr
    intro a _
    by_cases ha : a.session_id = sid <;> simp [ha]
  have hlc : load_or_create sid db
      = (db.next_id,
         ⟨db.rows ++ [ConvRow.mk db.next_id sid db.now],
          db.next_id + 1, db.now + 1⟩) := by
    unfold load_or_create get_conversation_id create_conversation
    rw [hfind]
    rfl
  have hfind1 :
      (db.rows ++ [ConvRow.mk db.next_id sid db.now]).find?
          (fun r => r.session_id = sid)
        = some (ConvRow.mk db.next_id sid db.now) := by
    rw [List.find?_append, hfind]
    simp
  have hcount1 :
      (db.rows ++ [ConvRow.mk db.next_id sid db.now]).countP
          (fun r => r.session_id = sid) = 1 := by
    rw [List.countP_append, h]
    simp
  have hload1 :
      load_or_create sid
          ⟨db.rows ++ [ConvRow.mk db.next_id sid db.now],
           db.next_id + 1, db.now + 1⟩
        = (db.next_id,
           ⟨db.rows ++ [ConvRow.mk db.next_id sid db.now],
            db.next_id + 1, db.now + 1⟩) := by
    unfold load_or_create get_conversation_id
    rw [hfind1]
    rfl
  have hcreate1 :
      create_conversation sid
          ⟨db.rows ++ [ConvRow.mk db.next_id sid db.now],
           db.next_id + 1, db.now + 1⟩
        = (db.next_id,
           ⟨(db.rows ++ [ConvRow.mk db.next_id sid db.now]).map
              (fun row =>
                if row.session_id = sid then { row with updated_at := db.now + 1 }
                else row),
            db.next_id + 1, db.now + 2⟩) := by
    unfold create_conversation
    rw [hfind1]
  rw [hlc]
  refine ⟨hcount1, by rw [hload1], ?_, ?_, ?_⟩
  · rw [hcreate1]
    simp
  · rw [hcreate1]
    exact (hmap _ _).trans hcount1
  · rw [hcreate1]

/-- Witness for `load_or_create_idempotent` on an empty table and
session id `"s"`. -/
theorem load_or_create_idempotent_witness :
    ((load_or_create "s" ⟨[], 0, 0⟩).2.rows.countP
        (fun r => r.session_id = "s") = 1)
    ∧ (load_or_create "s" (load_or_create "s" ⟨[], 0, 0⟩).2
        = ((load_or_create "s" ⟨[], 0, 0⟩).1, (load_or_create "s" ⟨[], 0, 0⟩).2))
    ∧ ((create_conversation "s" (load_or_create "s" ⟨[], 0, 0⟩).2).2.rows.length
        = (load_or_create "s" ⟨[], 0, 0⟩).2.rows.length)
    ∧ ((create_conversation "s" (load_or_create "s" ⟨[], 0, 0⟩).2).2.rows.countP
          (fun r => r.session_id = "s") = 1)
    ∧ ((create_conversation "s" (load_or_create "s" ⟨[], 0, 0⟩).2).1
        = (load_or_create "s" ⟨[], 0, 0⟩).1) :=
  load_or_create_idempotent "s" ⟨[], 0, 0⟩ (by decide)
